import Mathlib

/-!
Shallow embedding of src/app.py, a storefront web application that
persists a user collection and a product collection in two JSON files
("data/users.json" and "data/products.json") and exposes CRUD routes
guarded by an admin gate.  Exceptions that a route does not catch are
modelled as a distinguished fatal outcome; the filesystem is modelled as
the parsed contents of the two files, with a missing file and an
unparsable file kept distinct because init_json_files (app.py 24-37)
rewrites only a missing file.
-/

/-- Truthiness of a value returned by request.form.get in Python: the
absent field (None) and the empty string are falsy, every other string
is truthy.  The same rule models the truthiness of an uploaded file
object, which is truthy exactly when its filename is non-empty. -/
def truthyStr : Option String → Bool
  | none => false
  | some s => !(s == "")

/-- Decimal digits folded into a natural number. -/
def digitsToNat (cs : List Char) : Nat :=
  cs.foldl (fun a c => 10 * a + (c.toNat - 48)) 0

/-- Split a character list at the first decimal point, returning the
part before it and, when a point is present, the part after it. -/
def splitDot : List Char → List Char × Option (List Char)
  | [] => ([], none)
  | c :: cs =>
      if c == '.' then ([], some cs)
      else
        let r := splitDot cs
        (c :: r.1, r.2)

/-- Unsigned part of a float literal: decimal digits with an optional
decimal point and at least one digit in total. -/
def parseUnsigned? (cs : List Char) : Option Rat :=
  match splitDot cs with
  | (a, none) =>
      if a.length > 0 && a.all Char.isDigit then
        some ((digitsToNat a : Rat))
      else none
  | (a, some b) =>
      if (a.length + b.length > 0) && a.all Char.isDigit
          && b.all Char.isDigit then
        some ((digitsToNat a : Rat)
          + (digitsToNat b : Rat) / ((10 : Rat) ^ b.length))
      else none

/-- Modelled fragment of the Python builtin float applied to a string
(external standard library, not code of this repository): an optional
sign followed by decimal digits with an optional decimal point, at
least one digit in total.  The result none models the ValueError that
float raises on a non-numeric string. -/
def parseFloat? (s : String) : Option Rat :=
  match s.toList with
  | '-' :: rest => (parseUnsigned? rest).map (fun r => -r)
  | '+' :: rest => parseUnsigned? rest
  | cs => parseUnsigned? cs

/-- State of one JSON backing file: missing (reading raises
FileNotFoundError), present but unparsable (reading raises
JSONDecodeError), or parsed well-formed content.  init_json_files
checks os.path.exists, so it rewrites a missing file but leaves an
unparsable one in place. -/
inductive FileState (α : Type) where
  | missing : FileState α
  | corrupt : FileState α
  | ok (data : α) : FileState α
  deriving DecidableEq

/-- One record of the "users" array of data/users.json.  The field
is_admin is read back with user.get, so it is modelled as optional with
default false at the read sites (app.py 111-115, 135). -/
structure UserRec where
  email : String
  password : String
  is_admin : Option Bool
  deriving DecidableEq

/-- One record of the "products" array of data/products.json
(app.py 184-193).  name, description and category come from
request.form.get and may therefore be stored as null by the edit
route; price is always the result of a float conversion. -/
structure Product where
  id : Int
  name : Option String
  description : Option String
  price : Rat
  category : Option String
  sizes : List String
  image : String
  created_at : String
  deriving DecidableEq

/-- The two JSON files of the data directory. -/
structure FS where
  usersF : FileState (List UserRec)
  productsF : FileState (List Product)
  deriving DecidableEq

/-- The default administrator record written by init_json_files when
data/users.json does not exist (app.py 25-33).  The hash function is a
parameter standing for werkzeug generate_password_hash. -/
def defaultAdmin (hashFn : String → String) : UserRec :=
  { email := "admin@modabrasileira.com"
    password := hashFn "admin123"
    is_admin := some true }

/-- init_json_files (app.py 24-37): each of the two files is written
with its default content when it does not exist; an existing file,
parsable or not, is left untouched. -/
def init_json_files (hashFn : String → String) (fs : FS) : FS :=
  { usersF :=
      match fs.usersF with
      | .missing => .ok [defaultAdmin hashFn]
      | s => s
    productsF :=
      match fs.productsF with
      | .missing => .ok ([] : List Product)
      | s => s }

/-- load_json on data/users.json followed by data.get (app.py 42-44):
none models the exception on a missing or unparsable file. -/
def loadUsers? (fs : FS) : Option (List UserRec) :=
  match fs.usersF with
  | .ok l => some l
  | _ => none

/-- load_json on data/products.json followed by data.get. -/
def loadProducts? (fs : FS) : Option (List Product) :=
  match fs.productsF with
  | .ok l => some l
  | _ => none

/-- save_json on data/users.json (app.py 46-48): full overwrite of the
file with the given collection. -/
def saveUsers (fs : FS) (l : List UserRec) : FS :=
  { fs with usersF := .ok l }

/-- save_json on data/products.json: full overwrite. -/
def saveProducts (fs : FS) (l : List Product) : FS :=
  { fs with productsF := .ok l }

/-- The request session: user_email is present after a login and
is_admin is the stored flag copied into the session (app.py 134-135). -/
structure Session where
  user_email : Option String
  is_admin : Option Bool
  deriving DecidableEq

/-- Result of a gated route: denied carries the flashed message, its
category and the redirect target; allowed carries the wrapped handler
result. -/
inductive GateResult (α : Type) where
  | denied (flashMsg flashCat redirectTo : String) : GateResult α
  | allowed (a : α) : GateResult α
  deriving DecidableEq

/-- admin_required (app.py 60-67): the wrapped handler runs only when
the session has a user_email and a truthy is_admin; otherwise the gate
flashes an error and redirects to the index route without running the
handler. -/
def admin_required {α : Type} (f : Session → α) (s : Session) : GateResult α :=
  if !(s.user_email.isSome) || !(s.is_admin.getD false) then
    .denied "Acesso negado. Apenas administradores." "error" "index"
  else
    .allowed (f s)

/-- Result of the index route: it always renders the listing page. -/
inductive IndexResult where
  | page (products : List Product) : IndexResult
  deriving DecidableEq

/-- index (app.py 70-78): loading failures are caught; the handler then
calls init_json_files and renders an empty listing. -/
def index (hashFn : String → String) (fs : FS) : IndexResult × FS :=
  match fs.productsF with
  | .ok l => (.page l, fs)
  | _ => (.page [], init_json_files hashFn fs)

/-- Result of the product detail route. -/
inductive DetailResult where
  | page (p : Product) : DetailResult
  | notFoundRedirect : DetailResult
  | errorRedirect : DetailResult
  deriving DecidableEq

/-- product_detail (app.py 80-92): the first product whose id matches
is rendered; no match flashes a not-found notice and redirects; a load
failure is caught, flashes an error notice and redirects. -/
def product_detail (fs : FS) (pid : Int) : DetailResult :=
  match fs.productsF with
  | .ok l =>
      match l.find? (fun p => p.id == pid) with
      | some p => .page p
      | none => .notFoundRedirect
  | _ => .errorRedirect

/-- Result of a POST to the register route. -/
inductive RegisterResult where
  | validationError : RegisterResult
  | duplicateEmail : RegisterResult
  | okRegistered : RegisterResult
  | fatal : RegisterResult
  deriving DecidableEq

/-- register POST (app.py 94-121): an absent or empty email or password
flashes a notice before any file access; the load is not wrapped in a
try block, so a missing or unparsable users file escapes as fatal; a
case-sensitive exact email match flashes a duplicate notice; otherwise
the record with the hashed password and is_admin false is appended and
saved. -/
def register (hashFn : String → String) (fs : FS) (email password : Option String) :
    RegisterResult × FS :=
  if !(truthyStr email) || !(truthyStr password) then
    (.validationError, fs)
  else
    match loadUsers? fs with
    | none => (.fatal, fs)
    | some users =>
        if users.any (fun u => u.email == email.getD "") then
          (.duplicateEmail, fs)
        else
          (.okRegistered, saveUsers fs (users ++
            [{ email := email.getD ""
               password := hashFn (password.getD "")
               is_admin := some false }]))

/-- Result of a POST to the login route. -/
inductive LoginResult where
  | okLogin (sess : Session) (redirectTo : String) : LoginResult
  | invalid : LoginResult
  | fatal : LoginResult
  deriving DecidableEq

/-- login POST (app.py 123-142): the first user with an exactly equal
email is looked up; a password check against the stored hash decides
success; both a wrong password and an unknown email fall through to
the same flash and redirect, modelled as the single value invalid.
The check function is a parameter standing for werkzeug
check_password_hash. -/
def login (check : String → String → Bool) (fs : FS) (email password : String) :
    LoginResult :=
  match loadUsers? fs with
  | none => .fatal
  | some users =>
      match users.find? (fun u => u.email == email) with
      | some u =>
          if check u.password password then
            .okLogin { user_email := some email
                       is_admin := some (u.is_admin.getD false) }
              (if u.is_admin.getD false then "admin_panel" else "index")
          else .invalid
      | none => .invalid

/-- Result of the admin listing route body (inside the admin gate). -/
inductive AdminPanelResult where
  | page (products : List Product) : AdminPanelResult
  | fatal : AdminPanelResult
  deriving DecidableEq

/-- admin_panel body (app.py 150-155): the load is not wrapped in a try
block. -/
def admin_panel (fs : FS) : AdminPanelResult :=
  match loadProducts? fs with
  | some l => .page l
  | none => .fatal

/-- The submitted add-product form (app.py 161-166): the image is
identified by the filename of the uploaded file, none when the field
is absent. -/
structure AddForm where
  name : Option String
  description : Option String
  price : Option String
  category : Option String
  sizes : List String
  image : Option String
  deriving DecidableEq

/-- Presence validation of add_product (app.py 168): Python all over
the five required values, each tested by truthiness. -/
def presenceOk (form : AddForm) : Bool :=
  truthyStr form.name && truthyStr form.description && truthyStr form.price
    && truthyStr form.category && truthyStr form.image

/-- Python max of a list of ids with default 0 (app.py 182). -/
def maxId : List Int → Int
  | [] => 0
  | x :: xs => xs.foldl max x

/-- The id assigned to the next created product: maximum existing id,
or 0 when the collection is empty, plus 1. -/
def nextId (l : List Product) : Int :=
  maxId (l.map Product.id) + 1

/-- Relative path stored on the product for an uploaded image: a
timestamp prefix joined to the sanitised filename (app.py 173-176,
191). -/
def mkImagePath (now fname : String) : String :=
  "uploads/" ++ now ++ "_" ++ fname

/-- Result of a POST to the add-product route body. -/
inductive AddResult where
  | validationError : AddResult
  | okAdded (newId : Int) : AddResult
  | fatal : AddResult
  deriving DecidableEq

/-- add_product POST body (app.py 160-197): presence validation first;
then the products file is loaded without a try block, the next id is
computed, the price string is converted by float (an unparsable price
escapes as fatal), and the new record is appended and saved. -/
def add_product (fs : FS) (form : AddForm) (now : String) : AddResult × FS :=
  if !(presenceOk form) then
    (.validationError, fs)
  else
    match loadProducts? fs with
    | none => (.fatal, fs)
    | some products =>
        match parseFloat? (form.price.getD "") with
        | none => (.fatal, fs)
        | some pr =>
            (.okAdded (nextId products),
              saveProducts fs (products ++
                [{ id := nextId products
                   name := form.name
                   description := form.description
                   price := pr
                   category := form.category
                   sizes := form.sizes
                   image := mkImagePath now (form.image.getD "")
                   created_at := now }]))

/-- The submitted edit-product form (app.py 213-219): same fields as
the add form, but no presence validation is performed on them. -/
structure EditForm where
  name : Option String
  description : Option String
  price : Option String
  category : Option String
  sizes : List String
  image : Option String
  deriving DecidableEq

/-- Result of a POST to the edit-product route body. -/
inductive EditResult where
  | notFound : EditResult
  | okUpdated : EditResult
  | fatal : EditResult
  deriving DecidableEq

/-- The in-place mutation of the matched product dict performed by
edit_product (app.py 213-226): name, description, price, category and
sizes are overwritten with the submitted values; the image is replaced
only when an uploaded file with a non-empty filename is present; id
and created_at are not touched. -/
def applyEdit (form : EditForm) (pr : Rat) (now : String) (p : Product) : Product :=
  { p with
    name := form.name
    description := form.description
    price := pr
    category := form.category
    sizes := form.sizes
    image :=
      if truthyStr form.image then mkImagePath now (form.image.getD "")
      else p.image }

/-- Replacement of the first record whose id matches, mirroring the
Python mutation of the dict found by next, which aliases one element
of the loaded list. -/
def updateFirst (f : Product → Product) (pid : Int) : List Product → List Product
  | [] => []
  | p :: ps => if p.id == pid then f p :: ps else p :: updateFirst f pid ps

/-- edit_product POST body (app.py 201-232): the products file is
loaded without a try block; no match flashes a not-found notice and
redirects; otherwise the submitted values overwrite the matched record
with float applied to the price string, where an absent price (a
TypeError of float on None) or a non-numeric price (a ValueError)
escapes as fatal before any save; the whole list is then saved. -/
def edit_product (fs : FS) (pid : Int) (form : EditForm) (now : String) :
    EditResult × FS :=
  match loadProducts? fs with
  | none => (.fatal, fs)
  | some products =>
      match products.find? (fun p => p.id == pid) with
      | none => (.notFound, fs)
      | some _ =>
          match form.price.bind parseFloat? with
          | none => (.fatal, fs)
          | some pr =>
              (.okUpdated,
                saveProducts fs (updateFirst (applyEdit form pr now) pid products))

/-- Result of a POST to the delete-product route body. -/
inductive DeleteResult where
  | okDeleted : DeleteResult
  | fatal : DeleteResult
  deriving DecidableEq

/-- delete_product POST body (app.py 234-242): the products file is
loaded without a try block; every record whose id matches is filtered
out, the list is saved, and a success notice is flashed whether or not
anything matched. -/
def delete_product (fs : FS) (pid : Int) : DeleteResult × FS :=
  match loadProducts? fs with
  | none => (.fatal, fs)
  | some products =>
      (.okDeleted, saveProducts fs (products.filter (fun p => !(p.id == pid))))

/-- A fixed valid add-product form used to run create operations
against the repository. -/
def validForm : AddForm :=
  { name := some "Shirt"
    description := some "Camiseta"
    price := some "29"
    category := some "tops"
    sizes := ["M", "L"]
    image := some "shirt.png" }

/-- The product appended by add_product on collection l when the form
is validForm and the timestamp is now. -/
def shirtProd (l : List Product) (now : String) : Product :=
  { id := nextId l
    name := some "Shirt"
    description := some "Camiseta"
    price := (29 : Rat)
    category := some "tops"
    sizes := ["M", "L"]
    image := mkImagePath now "shirt.png"
    created_at := now }

/-- One repository operation at the route level: a create with the
fixed valid form, or a delete of a given id. -/
inductive RepoOp where
  | create : RepoOp
  | del (pid : Int) : RepoOp
  deriving DecidableEq

/-- A sequence of create and delete route calls, returning the final
filesystem and the list of ids assigned by the successful creates, in
order. -/
def runOps : FS → List RepoOp → FS × List Int
  | fs, [] => (fs, [])
  | fs, RepoOp.create :: ops =>
      match add_product fs validForm "t" with
      | (AddResult.okAdded i, fs2) =>
          ((runOps fs2 ops).1, i :: (runOps fs2 ops).2)
      | (_, fs2) => runOps fs2 ops
  | fs, RepoOp.del pid :: ops => runOps (delete_product fs pid).2 ops

/-- Concrete stand-in for werkzeug generate_password_hash (external
library code), used to instantiate hash-parameterised definitions at
concrete inputs. -/
def hashF (p : String) : String :=
  "pbkdf2-sha256-" ++ p

/-- Concrete stand-in for werkzeug check_password_hash, matching
hashF. -/
def checkF (stored given : String) : Bool :=
  stored == hashF given

/-- A concrete stored product used to instantiate theorems. -/
def sampleProd : Product :=
  { id := 1
    name := some "Shirt"
    description := some "d"
    price := (29 : Rat)
    category := some "tops"
    sizes := ["M"]
    image := "uploads/t_a.png"
    created_at := "t0" }

/-- A concrete edit form with every field supplied and no new image. -/
def sampleEdit : EditForm :=
  { name := some "Hat"
    description := some "e"
    price := some "3"
    category := some "hats"
    sizes := []
    image := none }

/-- A concrete edit form whose name, description and category fields
are absent while the price still parses. -/
def nullEdit : EditForm :=
  { name := none
    description := none
    price := some "3"
    category := none
    sizes := []
    image := none }

/-- A concrete add form with every field absent. -/
def emptyForm : AddForm :=
  { name := none
    description := none
    price := none
    category := none
    sizes := []
    image := none }

/-- A concrete add form whose price field is the negative literal. -/
def negForm : AddForm :=
  { name := some "Shirt"
    description := some "d"
    price := some "-5"
    category := some "tops"
    sizes := []
    image := some "s.png" }

/-- The product that add_product stores for negForm on the empty
collection. -/
def negProd : Product :=
  { id := 1
    name := some "Shirt"
    description := some "d"
    price := -(5 : Rat)
    category := some "tops"
    sizes := []
    image := "uploads/t_s.png"
    created_at := "t" }

/-- The seed of a left fold by max bounds the fold from below. -/
theorem le_foldl_max (xs : List Int) : ∀ a : Int, a ≤ xs.foldl max a := by
  induction xs with
  | nil => intro a; exact le_refl a
  | cons x xs ih => intro a; exact le_trans (le_max_left a x) (ih (max a x))

/-- Every member of a list bounds its left fold by max from below. -/
theorem mem_le_foldl_max (xs : List Int) : ∀ (a i : Int), i ∈ xs → i ≤ xs.foldl max a := by
  induction xs with
  | nil => intro a i hi; cases hi
  | cons x xs ih =>
      intro a i hi
      cases hi with
      | head => exact le_trans (le_max_right a x) (le_foldl_max xs (max a x))
      | tail _ h => exact ih (max a x) i h

/-- Every id present is at most the Python max with default 0. -/
theorem le_maxId (xs : List Int) (i : Int) (hi : i ∈ xs) : i ≤ maxId xs := by
  cases xs with
  | nil => cases hi
  | cons x xs =>
      rcases List.mem_cons.mp hi with h | h
      · subst h; exact le_foldl_max xs i
      · exact mem_le_foldl_max xs x i h

/-- Every id present in the collection is strictly below the id the
next create assigns. -/
theorem lt_nextId (l : List Product) (i : Int) (hi : i ∈ l.map Product.id) :
    i < nextId l := by
  have hb := le_maxId (l.map Product.id) i hi
  unfold nextId
  omega

/-- add_product on a loadable collection and the fixed valid form
appends exactly the shirt product and reports its fresh id. -/
theorem add_product_valid (u : FileState (List UserRec)) (l : List Product)
    (now : String) :
    add_product ⟨u, .ok l⟩ validForm now =
      (.okAdded (nextId l), ⟨u, .ok (l ++ [shirtProd l now])⟩) := rfl

/-- delete_product on a loadable collection filters out every matching
record and reports success. -/
theorem delete_product_eq (u : FileState (List UserRec)) (l : List Product)
    (pid : Int) :
    delete_product ⟨u, .ok l⟩ pid =
      (.okDeleted, ⟨u, .ok (l.filter (fun p => !(p.id == pid)))⟩) := rfl

/-- Along any sequence of create and delete operations the collection
stays loadable and its ids stay pairwise distinct, provided they start
pairwise distinct. -/
theorem runOps_nodup (ops : List RepoOp) :
    ∀ (u : FileState (List UserRec)) (l : List Product),
      (l.map Product.id).Nodup →
      ∃ l2, (runOps ⟨u, .ok l⟩ ops).1.productsF = .ok l2 ∧ (l2.map Product.id).Nodup := by
  induction ops with
  | nil => intro u l h; exact ⟨l, rfl, h⟩
  | cons op ops ih =>
      intro u l h
      cases op with
      | create =>
          have hfresh : ((l ++ [shirtProd l "t"]).map Product.id).Nodup := by
            rw [List.map_append, List.nodup_append]
            refine ⟨h, List.nodup_singleton _, ?_⟩
            intro a ha hb
            simp [shirtProd] at hb
            subst hb
            exact absurd (lt_nextId l _ ha) (lt_irrefl _)
          have hrec := ih u (l ++ [shirtProd l "t"]) hfresh
          simpa [runOps, add_product_valid] using hrec
      | del pid =>
          have hsub : ((l.filter (fun p => !(p.id == pid))).map Product.id).Nodup :=
            h.sublist ((List.filter_sublist l).map Product.id)
          have hrec := ih u (l.filter (fun p => !(p.id == pid))) hsub
          simpa [runOps, delete_product_eq] using hrec

/-- find? locates the first record whose id matches, skipping a prefix
of non-matching records. -/
theorem find_first_match (pid : Int) (p : Product) (hp : p.id = pid) :
    ∀ (l1 : List Product), (∀ q ∈ l1, q.id ≠ pid) → ∀ l2 : List Product,
      (l1 ++ p :: l2).find? (fun q => q.id == pid) = some p := by
  intro l1
  induction l1 with
  | nil =>
      intro _ l2
      simp [List.find?, hp]
  | cons a l1 ih =>
      intro hl l2
      have ha : (a.id == pid) = false := by
        simp [hl a (List.mem_cons_self a l1)]
      simp [List.find?, ha, ih (fun q hq => hl q (List.mem_cons_of_mem a hq)) l2]

/-- updateFirst rewrites the first record whose id matches and leaves
the non-matching prefix and the suffix untouched. -/
theorem updateFirst_append (f : Product → Product) (pid : Int) (p : Product)
    (hp : p.id = pid) :
    ∀ (l1 : List Product), (∀ q ∈ l1, q.id ≠ pid) → ∀ l2 : List Product,
      updateFirst f pid (l1 ++ p :: l2) = l1 ++ f p :: l2 := by
  intro l1
  induction l1 with
  | nil =>
      intro _ l2
      simp [updateFirst, hp]
  | cons a l1 ih =>
      intro hl l2
      have ha : (a.id == pid) = false := by
        simp [hl a (List.mem_cons_self a l1)]
      simp [updateFirst, ha, ih (fun q hq => hl q (List.mem_cons_of_mem a hq)) l2]

/-- After filtering out an id, no record with that id can be found. -/
theorem find_filter_none (l : List Product) (pid : Int) :
    (l.filter (fun p => !(p.id == pid))).find? (fun p => p.id == pid) = none := by
  rw [List.find?_eq_none]
  intro x hx
  have hmem := (List.mem_filter.mp hx).2
  simp at hmem ⊢
  exact hmem

/-- Shared shape lemma for the edit route: on a collection that splits
as a non-matching prefix, the matched record and a suffix, the route
either rewrites exactly the matched record in place (when the price
parses) or fails fatally before any save (when the price is absent or
non-numeric). -/
theorem edit_product_found (u : FileState (List UserRec)) (l1 l2 : List Product)
    (p : Product) (pid : Int) (form : EditForm) (now : String)
    (hp : p.id = pid) (hl1 : ∀ q ∈ l1, q.id ≠ pid) :
    (∀ pr, form.price.bind parseFloat? = some pr →
      edit_product ⟨u, .ok (l1 ++ p :: l2)⟩ pid form now =
        (.okUpdated, ⟨u, .ok (l1 ++ applyEdit form pr now p :: l2)⟩)) ∧
    (form.price.bind parseFloat? = none →
      edit_product ⟨u, .ok (l1 ++ p :: l2)⟩ pid form now
        = (.fatal, ⟨u, .ok (l1 ++ p :: l2)⟩)) := by
  constructor
  · intro pr hpr
    have hf := find_first_match pid p hp l1 hl1 l2
    have hu := updateFirst_append (applyEdit form pr now) pid p hp l1 hl1 l2
    simp [edit_product, loadProducts?, hf, hpr, saveProducts, hu]
  · intro hnone
    have hf := find_first_match pid p hp l1 hl1 l2
    simp [edit_product, loadProducts?, hf, hnone]

/-- C1 counterexample: starting from the empty collection, the route
sequence create, create, delete 2, create assigns the ids 1, 2, 2.
The id 2 is assigned again after the product holding it was deleted,
so the ids of all products ever created are not pairwise distinct and
the last assigned id does not strictly exceed the maximum id
previously assigned, refuting the claim as stated. -/
theorem c1_counterexample :
    (runOps ⟨FileState.ok [], FileState.ok []⟩
        [RepoOp.create, RepoOp.create, RepoOp.del 2, RepoOp.create]).2 = [1, 2, 2] ∧
    ¬ ((runOps ⟨FileState.ok [], FileState.ok []⟩
        [RepoOp.create, RepoOp.create, RepoOp.del 2, RepoOp.create]).2).Nodup :=
  ⟨rfl, by decide⟩

/-- C1 (amended): each create assigns id equal to (maximum existing
id, or 0 if the collection is empty) + 1; each newly assigned id
strictly exceeds every id present in the collection at assignment
time; hence, starting from a collection whose ids are pairwise
distinct, the ids of the products simultaneously present remain
pairwise distinct across every sequence of create and delete
operations.  An id can be assigned again after the product holding
the current maximum id is deleted. -/
theorem c1_amended (u : FileState (List UserRec)) (l : List Product) (now : String)
    (ops : List RepoOp) (h : (l.map Product.id).Nodup) :
    (add_product ⟨u, .ok l⟩ validForm now).1 = .okAdded (nextId l) ∧
    (∀ i ∈ l.map Product.id, i < nextId l) ∧
    (∃ l2, (runOps ⟨u, .ok l⟩ ops).1.productsF = .ok l2 ∧ (l2.map Product.id).Nodup) :=
  ⟨rfl, fun i hi => lt_nextId l i hi, runOps_nodup ops u l h⟩

/-- C1 witness: the amended theorem applied to the empty collection
and the sequence create then delete 1. -/
theorem c1_amended_witness :
    (([] : List Product).map Product.id).Nodup ∧
    ((add_product ⟨FileState.ok [], FileState.ok []⟩ validForm "t").1
        = .okAdded (nextId []) ∧
      (∀ i ∈ ([] : List Product).map Product.id, i < nextId []) ∧
      (∃ l2, (runOps ⟨FileState.ok [], FileState.ok []⟩
          [RepoOp.create, RepoOp.del 1]).1.productsF = .ok l2 ∧
        (l2.map Product.id).Nodup)) :=
  ⟨by decide,
    c1_amended (FileState.ok []) [] "t" [RepoOp.create, RepoOp.del 1] (by decide)⟩

/-- C2 counterexample: a registration attempt with a well-formed email
and password while the users file is missing reaches load_json outside
any try block (app.py 104), so the load failure escapes to the end
user as a fatal fault instead of being recovered by re-initializing an
empty collection, refuting the claim for the register operation. -/
theorem c2_counterexample :
    register hashF ⟨FileState.missing, FileState.ok []⟩ (some "a@b.c") (some "pw")
      = (RegisterResult.fatal, ⟨FileState.missing, FileState.ok []⟩) := rfl

/-- C2 (amended): only the public product listing recovers a missing
products file, by re-initializing it to an empty collection and
proceeding; an unparsable products file makes the listing proceed with
an empty list but is left in place by init_json_files; the product
detail route catches the load failure and redirects with an error
notice without re-initializing; every other operation that reads a
collection (register, login, admin listing, create with complete
fields, update, delete) performs the load outside a try block, so the
load failure escapes as a fatal fault. -/
theorem c2_amended (hashFn : String → String) (check : String → String → Bool)
    (u : FileState (List UserRec)) (pid : Int) (eform : EditForm) (now : String)
    (e pw : String) (he : e ≠ "") (hpw : pw ≠ "") :
    index hashFn ⟨.missing, .missing⟩
      = (.page [], init_json_files hashFn ⟨.missing, .missing⟩) ∧
    loadProducts? (init_json_files hashFn ⟨.missing, .missing⟩) = some [] ∧
    (init_json_files hashFn ⟨u, .corrupt⟩).productsF = .corrupt ∧
    product_detail ⟨.missing, .missing⟩ pid = .errorRedirect ∧
    admin_panel ⟨.missing, .missing⟩ = .fatal ∧
    register hashFn ⟨.missing, .missing⟩ (some e) (some pw)
      = (.fatal, ⟨.missing, .missing⟩) ∧
    login check ⟨.missing, .missing⟩ e pw = .fatal ∧
    add_product ⟨.missing, .missing⟩ validForm now = (.fatal, ⟨.missing, .missing⟩) ∧
    edit_product ⟨.missing, .missing⟩ pid eform now = (.fatal, ⟨.missing, .missing⟩) ∧
    delete_product ⟨.missing, .missing⟩ pid = (.fatal, ⟨.missing, .missing⟩) := by
  have he2 : truthyStr (some e) = true := by simp [truthyStr, he]
  have hpw2 : truthyStr (some pw) = true := by simp [truthyStr, hpw]
  refine ⟨rfl, rfl, rfl, rfl, rfl, ?_, rfl, rfl, rfl, rfl⟩
  simp [register, he2, hpw2, loadUsers?]

/-- C2 witness: the amended theorem applied at a concrete email and
password. -/
theorem c2_amended_witness :
    ("a@b.c" : String) ≠ "" ∧ ("pw" : String) ≠ "" ∧
    register hashF ⟨FileState.missing, FileState.missing⟩ (some "a@b.c") (some "pw")
      = (.fatal, ⟨FileState.missing, FileState.missing⟩) :=
  ⟨by decide, by decide,
    (c2_amended hashF checkF (FileState.ok []) 1 nullEdit "t" "a@b.c" "pw"
        (by decide) (by decide)).2.2.2.2.2.1⟩

/-- C3 counterexample: a create request whose price field is the
string -5 passes the only validation the route performs (presence of
the five fields), so instead of being rejected with a validation
notice it is stored, and the stored price is negative, refuting the
claim that the price is validated to be non-negative. -/
theorem c3_counterexample :
    add_product ⟨FileState.ok [], FileState.ok []⟩ negForm "t"
      = (AddResult.okAdded 1, ⟨FileState.ok [], FileState.ok [negProd]⟩) ∧
    negProd.price < 0 :=
  ⟨rfl, by decide⟩

/-- C3 (amended): the create route validates only that name,
description, price, category and image are present; when presence
validation fails no product is stored and the user receives a
validation notice; when it succeeds, the price string is converted by
float, which accepts negative numbers, and a product with exactly the
submitted fields and the converted price is appended; a non-numeric
price escapes as an unhandled conversion error with nothing stored. -/
theorem c3_amended (u : FileState (List UserRec)) (l : List Product)
    (form : AddForm) (now : String) :
    (presenceOk form = false → ∀ fs : FS, add_product fs form now = (.validationError, fs)) ∧
    (presenceOk form = true →
      ∀ pr, parseFloat? (form.price.getD "") = some pr →
        add_product ⟨u, .ok l⟩ form now =
          (.okAdded (nextId l),
            ⟨u, .ok (l ++
              [{ id := nextId l
                 name := form.name
                 description := form.description
                 price := pr
                 category := form.category
                 sizes := form.sizes
                 image := mkImagePath now (form.image.getD "")
                 created_at := now }])⟩)) ∧
    (presenceOk form = true → parseFloat? (form.price.getD "") = none →
      add_product ⟨u, .ok l⟩ form now = (.fatal, ⟨u, .ok l⟩)) := by
  refine ⟨?_, ?_, ?_⟩
  · intro h fs
    simp [add_product, h]
  · intro h pr hpr
    simp [add_product, h, loadProducts?, hpr, saveProducts]
  · intro h hnone
    simp [add_product, h, loadProducts?, hnone]

/-- C3 witness: the amended theorem applied to the all-absent form,
which fails presence validation and stores nothing. -/
theorem c3_amended_witness :
    presenceOk emptyForm = false ∧
    add_product ⟨FileState.ok [], FileState.ok []⟩ emptyForm "t"
      = (.validationError, ⟨FileState.ok [], FileState.ok []⟩) :=
  ⟨by decide,
    (c3_amended (FileState.ok []) [] emptyForm "t").1 (by decide)
      ⟨FileState.ok [], FileState.ok []⟩⟩

/-- C4 (confirmed): on a loadable users collection, a login with a
password that checks against the stored hash of the first user whose
email matches exactly succeeds and copies the stored is_admin flag
(with default false) into the session, while a failing password check
and an email with no matching user both produce the single invalid
outcome, the same flash and redirect, with no observable distinction
between the two failure causes. -/
theorem c4_authenticate_uniform (check : String → String → Bool)
    (users : List UserRec) (pf : FileState (List Product)) (email password : String) :
    (∀ w, users.find? (fun v => v.email == email) = some w →
      (check w.password password = true →
        login check ⟨.ok users, pf⟩ email password =
          .okLogin ⟨some email, some (w.is_admin.getD false)⟩
            (if w.is_admin.getD false then "admin_panel" else "index")) ∧
      (check w.password password = false →
        login check ⟨.ok users, pf⟩ email password = .invalid)) ∧
    (users.find? (fun v => v.email == email) = none →
      login check ⟨.ok users, pf⟩ email password = .invalid) := by
  constructor
  · intro w hw
    constructor
    · intro hc
      simp [login, loadUsers?, hw, hc]
    · intro hc
      simp [login, loadUsers?, hw, hc]
  · intro hn
    simp [login, loadUsers?, hn]

/-- C4 witness: a concrete one-admin collection; the correct password
succeeds with the stored admin flag, a wrong password and an unknown
email both give the identical invalid outcome. -/
theorem c4_authenticate_uniform_witness :
    ([{ email := "a@b", password := hashF "pw", is_admin := some true }]
        : List UserRec).find? (fun v => v.email == "a@b")
      = some { email := "a@b", password := hashF "pw", is_admin := some true } ∧
    checkF (hashF "pw") "pw" = true ∧
    login checkF ⟨.ok [{ email := "a@b", password := hashF "pw", is_admin := some true }],
        .ok []⟩ "a@b" "pw" = .okLogin ⟨some "a@b", some true⟩ "admin_panel" ∧
    login checkF ⟨.ok [{ email := "a@b", password := hashF "pw", is_admin := some true }],
        .ok []⟩ "a@b" "bad" = .invalid ∧
    login checkF ⟨.ok [{ email := "a@b", password := hashF "pw", is_admin := some true }],
        .ok []⟩ "zz@b" "pw" = .invalid :=
  ⟨by decide, by decide,
    ((c4_authenticate_uniform checkF
        [{ email := "a@b", password := hashF "pw", is_admin := some true }]
        (FileState.ok []) "a@b" "pw").1
      { email := "a@b", password := hashF "pw", is_admin := some true }
      (by decide)).1 (by decide),
    ((c4_authenticate_uniform checkF
        [{ email := "a@b", password := hashF "pw", is_admin := some true }]
        (FileState.ok []) "a@b" "bad").1
      { email := "a@b", password := hashF "pw", is_admin := some true }
      (by decide)).2 (by decide),
    (c4_authenticate_uniform checkF
        [{ email := "a@b", password := hashF "pw", is_admin := some true }]
        (FileState.ok []) "zz@b" "pw").2 (by decide)⟩

/-- C5 (confirmed): the admin gate rejects a request with no identity
and a request whose identity is not an admin with the identical denied
outcome (the same notice and a redirect to the public landing page),
independently of the wrapped handler, so no repository operation runs
in the rejecting cases; it accepts a session whose is_admin flag is
true. -/
theorem c5_admin_gate {α : Type} (f g : Session → α) (s1 s2 : Session)
    (h1 : s1.user_email = none) (h2 : s2.is_admin ≠ some true) :
    admin_required f s1
      = GateResult.denied "Acesso negado. Apenas administradores." "error" "index" ∧
    admin_required g s2
      = GateResult.denied "Acesso negado. Apenas administradores." "error" "index" ∧
    admin_required f s1 = admin_required g s2 ∧
    (∀ e, admin_required f ⟨some e, some true⟩ = .allowed (f ⟨some e, some true⟩)) := by
  have hd1 : admin_required f s1
      = GateResult.denied "Acesso negado. Apenas administradores." "error" "index" := by
    simp [admin_required, h1]
  have hd2 : admin_required g s2
      = GateResult.denied "Acesso negado. Apenas administradores." "error" "index" := by
    rcases hb : s2.is_admin with _ | b
    · simp [admin_required, hb]
    · cases b
      · simp [admin_required, hb]
      · exact absurd hb h2
  refine ⟨hd1, hd2, ?_, ?_⟩
  · rw [hd1, hd2]
  · intro e
    simp [admin_required]

/-- C5 witness: the gate applied with two distinct handlers to a
session with no identity and a session with a non-admin identity. -/
theorem c5_admin_gate_witness :
    (Session.mk none (some true)).user_email = none ∧
    (Session.mk (some "x") (some false)).is_admin ≠ some true ∧
    admin_required (fun _ => true) ⟨none, some true⟩
      = GateResult.denied "Acesso negado. Apenas administradores." "error" "index" ∧
    admin_required (fun _ => false) ⟨some "x", some false⟩
      = GateResult.denied "Acesso negado. Apenas administradores." "error" "index" ∧
    admin_required (fun _ => true) ⟨none, some true⟩
      = admin_required (fun _ => false) ⟨some "x", some false⟩ ∧
    admin_required (fun _ => true) ⟨some "e", some true⟩ = .allowed true :=
  ⟨rfl, by decide,
    (c5_admin_gate (fun _ => true) (fun _ => false) ⟨none, some true⟩
        ⟨some "x", some false⟩ rfl (by decide)).1,
    (c5_admin_gate (fun _ => true) (fun _ => false) ⟨none, some true⟩
        ⟨some "x", some false⟩ rfl (by decide)).2.1,
    (c5_admin_gate (fun _ => true) (fun _ => false) ⟨none, some true⟩
        ⟨some "x", some false⟩ rfl (by decide)).2.2.1,
    (c5_admin_gate (fun _ => true) (fun _ => false) ⟨none, some true⟩
        ⟨some "x", some false⟩ rfl (by decide)).2.2.2 "e"⟩

/-- C6 (confirmed): a registration with an absent or empty email or
password fails with a validation notice before any file access, and a
registration whose email exactly matches a stored record
(case-sensitive string equality) fails with the duplicate notice; in
both failure cases the filesystem is returned unchanged; otherwise the
record with the hashed password and is_admin false is appended and
saved. -/
theorem c6_register (hashFn : String → String) (fs : FS) (email password : Option String) :
    (truthyStr email = false ∨ truthyStr password = false →
      register hashFn fs email password = (.validationError, fs)) ∧
    (∀ users, fs.usersF = .ok users → truthyStr email = true → truthyStr password = true →
      ((users.any (fun w => w.email == email.getD "")) = true →
        register hashFn fs email password = (.duplicateEmail, fs)) ∧
      ((users.any (fun w => w.email == email.getD "")) = false →
        register hashFn fs email password =
          (.okRegistered, saveUsers fs (users ++
            [{ email := email.getD ""
               password := hashFn (password.getD "")
               is_admin := some false }])))) := by
  constructor
  · intro h
    rcases h with h | h <;> simp [register, h]
  · intro users hu he hp
    constructor
    · intro hdup
      simp [register, he, hp, loadUsers?, hu, hdup]
    · intro hdup
      simp [register, he, hp, loadUsers?, hu, hdup]

/-- C6 witness: registering an email already stored fails with the
duplicate outcome and leaves the filesystem unchanged. -/
theorem c6_register_witness :
    (FS.mk (.ok [{ email := "a@b", password := hashF "pw", is_admin := some false }])
        (.ok [])).usersF
      = .ok [{ email := "a@b", password := hashF "pw", is_admin := some false }] ∧
    truthyStr (some "a@b") = true ∧
    truthyStr (some "pw2") = true ∧
    ([{ email := "a@b", password := hashF "pw", is_admin := some false }]
        : List UserRec).any (fun w => w.email == (some "a@b").getD "") = true ∧
    register hashF
        ⟨.ok [{ email := "a@b", password := hashF "pw", is_admin := some false }], .ok []⟩
        (some "a@b") (some "pw2")
      = (.duplicateEmail,
          ⟨.ok [{ email := "a@b", password := hashF "pw", is_admin := some false }],
            .ok []⟩) :=
  ⟨rfl, by decide, by decide, by decide,
    ((c6_register hashF
        ⟨.ok [{ email := "a@b", password := hashF "pw", is_admin := some false }], .ok []⟩
        (some "a@b") (some "pw2")).2
      [{ email := "a@b", password := hashF "pw", is_admin := some false }]
      rfl (by decide) (by decide)).1 (by decide)⟩

/-- C7 (confirmed): updating an existing product replaces its name,
description, price, category and sizes with the submitted values,
replaces the image reference only when a new image with a non-empty
filename is supplied and retains it otherwise, never modifies id or
created_at, and leaves every other product of the collection
unchanged. -/
theorem c7_edit_frame (u : FileState (List UserRec)) (l1 l2 : List Product)
    (p : Product) (pid : Int) (form : EditForm) (now : String) (pr : Rat)
    (hp : p.id = pid) (hl1 : ∀ q ∈ l1, q.id ≠ pid)
    (hpr : form.price.bind parseFloat? = some pr) :
    edit_product ⟨u, .ok (l1 ++ p :: l2)⟩ pid form now =
      (.okUpdated, ⟨u, .ok (l1 ++ applyEdit form pr now p :: l2)⟩) ∧
    (applyEdit form pr now p).id = p.id ∧
    (applyEdit form pr now p).created_at = p.created_at ∧
    (applyEdit form pr now p).name = form.name ∧
    (applyEdit form pr now p).description = form.description ∧
    (applyEdit form pr now p).price = pr ∧
    (applyEdit form pr now p).category = form.category ∧
    (applyEdit form pr now p).sizes = form.sizes ∧
    (truthyStr form.image = false → (applyEdit form pr now p).image = p.image) ∧
    (truthyStr form.image = true →
      (applyEdit form pr now p).image = mkImagePath now (form.image.getD "")) := by
  refine ⟨(edit_product_found u l1 l2 p pid form now hp hl1).1 pr hpr,
    rfl, rfl, rfl, rfl, rfl, rfl, rfl, ?_, ?_⟩
  · intro h
    simp [applyEdit, h]
  · intro h
    simp [applyEdit, h]

/-- C7 witness: an edit of the concrete stored product with every
field supplied and no new image rewrites exactly that record. -/
theorem c7_edit_frame_witness :
    sampleProd.id = (1 : Int) ∧
    (∀ q ∈ ([] : List Product), q.id ≠ (1 : Int)) ∧
    sampleEdit.price.bind parseFloat? = some 3 ∧
    edit_product ⟨FileState.ok [], FileState.ok [sampleProd]⟩ 1 sampleEdit "t2" =
      (.okUpdated, ⟨FileState.ok [], FileState.ok [applyEdit sampleEdit 3 "t2" sampleProd]⟩) ∧
    (applyEdit sampleEdit 3 "t2" sampleProd).image = sampleProd.image :=
  ⟨by decide, by decide, by decide,
    (c7_edit_frame (FileState.ok []) [] [] sampleProd 1 sampleEdit "t2" 3
        (by decide) (by decide) (by decide)).1,
    (c7_edit_frame (FileState.ok []) [] [] sampleProd 1 sampleEdit "t2" 3
        (by decide) (by decide) (by decide)).2.2.2.2.2.2.2.2.1 (by decide)⟩

/-- C8 (confirmed): the delete route removes every record whose id
matches and signals success whether or not anything matched; a get of
the deleted id afterwards returns absent; deleting an id with no
matching record leaves the collection unchanged; deleting twice equals
deleting once; every product with a different id stays in the
collection. -/
theorem c8_delete (u : FileState (List UserRec)) (l : List Product) (pid : Int) :
    delete_product ⟨u, .ok l⟩ pid
      = (.okDeleted, ⟨u, .ok (l.filter (fun p => !(p.id == pid)))⟩) ∧
    product_detail (delete_product ⟨u, .ok l⟩ pid).2 pid = .notFoundRedirect ∧
    ((∀ p ∈ l, p.id ≠ pid) → delete_product ⟨u, .ok l⟩ pid = (.okDeleted, ⟨u, .ok l⟩)) ∧
    delete_product (delete_product ⟨u, .ok l⟩ pid).2 pid = delete_product ⟨u, .ok l⟩ pid ∧
    (∀ q, q.id ≠ pid → (q ∈ l ↔ q ∈ l.filter (fun p => !(p.id == pid)))) := by
  have hff : (l.filter (fun p => !(p.id == pid))).filter (fun p => !(p.id == pid))
      = l.filter (fun p => !(p.id == pid)) :=
    List.filter_eq_self.mpr (fun a ha => (List.mem_filter.mp ha).2)
  refine ⟨rfl, ?_, ?_, ?_, ?_⟩
  · show product_detail ⟨u, .ok (l.filter (fun p => !(p.id == pid)))⟩ pid
        = .notFoundRedirect
    simp only [product_detail]
    rw [find_filter_none]
  · intro hnone
    have hself : l.filter (fun p => !(p.id == pid)) = l := by
      apply List.filter_eq_self.mpr
      intro a ha
      simp [hnone a ha]
    rw [delete_product_eq, hself]
  · simp [delete_product_eq, hff]
  · intro q hq
    simp [List.mem_filter, hq]

/-- C8 witness: deleting an id with no matching record from the
concrete one-product collection leaves it unchanged and still signals
success. -/
theorem c8_delete_witness :
    (∀ p ∈ [sampleProd], p.id ≠ (2 : Int)) ∧
    delete_product ⟨FileState.ok [], FileState.ok [sampleProd]⟩ 2
      = (.okDeleted, ⟨FileState.ok [], FileState.ok [sampleProd]⟩) :=
  ⟨by decide, (c8_delete (FileState.ok []) [sampleProd] 2).2.2.1 (by decide)⟩

/-- C9 counterexample: when the users file is missing, re-initializing
and loading yields the collection holding the single default admin
record, which is not the empty collection, refuting the claim that a
missing backing file always re-initializes to an empty collection. -/
theorem c9_counterexample :
    loadUsers? (init_json_files hashF ⟨FileState.missing, FileState.missing⟩)
      = some [defaultAdmin hashF] ∧
    [defaultAdmin hashF] ≠ ([] : List UserRec) :=
  ⟨rfl, by decide⟩

/-- C9 (amended): re-initializing a missing products file and loading
yields the empty collection, while a missing users file re-initializes
to the collection holding the single default admin record; for either
collection, a save followed by a load returns exactly the saved
content. -/
theorem c9_amended (hashFn : String → String) (fs : FS) :
    (fs.productsF = .missing → loadProducts? (init_json_files hashFn fs) = some []) ∧
    (fs.usersF = .missing →
      loadUsers? (init_json_files hashFn fs) = some [defaultAdmin hashFn]) ∧
    (∀ l, loadProducts? (saveProducts fs l) = some l) ∧
    (∀ ul, loadUsers? (saveUsers fs ul) = some ul) := by
  refine ⟨?_, ?_, fun l => rfl, fun ul => rfl⟩
  · intro h
    simp [init_json_files, loadProducts?, h]
  · intro h
    simp [init_json_files, loadUsers?, h]

/-- C9 witness: the amended theorem applied to the filesystem with
both files missing. -/
theorem c9_amended_witness :
    (FS.mk FileState.missing FileState.missing).productsF = .missing ∧
    loadProducts? (init_json_files hashF ⟨FileState.missing, FileState.missing⟩)
      = some [] :=
  ⟨rfl, (c9_amended hashF ⟨FileState.missing, FileState.missing⟩).1 rfl⟩

/-- C10 (confirmed): the edit route applies the submitted values to an
existing product without the presence validation that create performs:
an absent name, description or category is stored as a null value on
the record while the update still succeeds, and an absent price (float
applied to None) or a non-numeric price escapes as an unhandled
conversion error, with no save performed, instead of a validation
notice. -/
theorem c10_edit_no_validation (u : FileState (List UserRec)) (l1 l2 : List Product)
    (p : Product) (pid : Int) (form : EditForm) (now : String)
    (hp : p.id = pid) (hl1 : ∀ q ∈ l1, q.id ≠ pid) :
    (∀ pr, form.price.bind parseFloat? = some pr →
      edit_product ⟨u, .ok (l1 ++ p :: l2)⟩ pid form now =
        (.okUpdated, ⟨u, .ok (l1 ++ applyEdit form pr now p :: l2)⟩) ∧
      (form.name = none → (applyEdit form pr now p).name = none) ∧
      (form.description = none → (applyEdit form pr now p).description = none) ∧
      (form.category = none → (applyEdit form pr now p).category = none)) ∧
    (form.price.bind parseFloat? = none →
      edit_product ⟨u, .ok (l1 ++ p :: l2)⟩ pid form now
        = (.fatal, ⟨u, .ok (l1 ++ p :: l2)⟩)) := by
  constructor
  · intro pr hpr
    refine ⟨(edit_product_found u l1 l2 p pid form now hp hl1).1 pr hpr, ?_, ?_, ?_⟩
    · intro h
      simp [applyEdit, h]
    · intro h
      simp [applyEdit, h]
    · intro h
      simp [applyEdit, h]
  · exact (edit_product_found u l1 l2 p pid form now hp hl1).2

/-- C10 witness: editing the concrete stored product with the form
whose name, description and category are absent succeeds and stores
null values for them. -/
theorem c10_edit_no_validation_witness :
    sampleProd.id = (1 : Int) ∧
    nullEdit.price.bind parseFloat? = some 3 ∧
    edit_product ⟨FileState.ok [], FileState.ok [sampleProd]⟩ 1 nullEdit "t2" =
      (.okUpdated, ⟨FileState.ok [], FileState.ok [applyEdit nullEdit 3 "t2" sampleProd]⟩) ∧
    (applyEdit nullEdit 3 "t2" sampleProd).name = none ∧
    (applyEdit nullEdit 3 "t2" sampleProd).description = none ∧
    (applyEdit nullEdit 3 "t2" sampleProd).category = none :=
  ⟨by decide, by decide,
    ((c10_edit_no_validation (FileState.ok []) [] [] sampleProd 1 nullEdit "t2"
        (by decide) (by decide)).1 3 (by decide)).1,
    ((c10_edit_no_validation (FileState.ok []) [] [] sampleProd 1 nullEdit "t2"
        (by decide) (by decide)).1 3 (by decide)).2.1 rfl,
    ((c10_edit_no_validation (FileState.ok []) [] [] sampleProd 1 nullEdit "t2"
        (by decide) (by decide)).1 3 (by decide)).2.2.1 rfl,
    ((c10_edit_no_validation (FileState.ok []) [] [] sampleProd 1 nullEdit "t2"
        (by decide) (by decide)).1 3 (by decide)).2.2.2 rfl⟩
